import Mathlib

/-!
Shallow embedding of the object-detection web app (src/app.py).

The app accepts an image by multipart upload or by URL, validates it,
stores it in an uploads directory, runs a pretrained detection engine on
the stored file and returns rounded detections plus an annotated image.
The detection engine (ultralytics YOLO), the image codec (cv2) and
werkzeug secure_filename are external collaborators: they appear here as
parameters (engine functions, the sanitizer sf), while every piece of
logic written in app.py itself is translated definitionally.

Strings are modelled as Lean String, image bytes as List Nat, the clock
(time.time) as a Nat parameter, and float values as rationals.
-/

set_option maxHeartbeats 1000000

namespace ObjDet

/-- Python str.lower, applied characterwise (ASCII case mapping). -/
def pyLower (s : String) : String := String.mk (s.toList.map Char.toLower)

/-- The characters Python str.strip removes: space, tab, newline,
carriage return, vertical tab, form feed. -/
def isPySpace (c : Char) : Bool :=
  c == ' ' || c == '\t' || c == '\n' || c == '\r' || c == Char.ofNat 11 || c == Char.ofNat 12

/-- Python str.strip: drop whitespace at both ends. -/
def pyStrip (s : String) : String :=
  String.mk (((s.toList.dropWhile isPySpace).reverse.dropWhile isPySpace).reverse)

/-- Python str.startswith: the second string is a prefix of the first. -/
def pyStartswith (s p : String) : Bool := p.toList.isPrefixOf s.toList

/-- Index of the last occurrence of a dot (Python str.rfind with a dot). -/
def lastDotIdx : List Char → Option Nat
  | [] => none
  | c :: rest =>
    match lastDotIdx rest with
    | some i => some (i + 1)
    | none => if c = '.' then some 0 else none

/-- The characters after the last dot: Python s.rsplit at a dot, once,
taking component 1 (only used when the string contains a dot). -/
def afterLastDot (cs : List Char) : List Char :=
  (cs.reverse.takeWhile (fun c => c ≠ '.')).reverse

/-- Allowed upload extensions (app.py ALLOWED_EXTS). -/
def ALLOWED_EXTS : List String := ["jpg", "jpeg", "png", "bmp"]

/-- Content-type allow-list for URL downloads (app.py ALLOWED_MIME_TO_EXT). -/
def ALLOWED_MIME_TO_EXT : List (String × String) :=
  [("image/jpeg", "jpg"), ("image/png", "png"), ("image/bmp", "bmp")]

/-- Hard cap on downloaded bytes: 5 MiB (app.py MAX_DOWNLOAD_BYTES). -/
def MAX_DOWNLOAD_BYTES : Nat := 5 * 1024 * 1024

/-- app.py allowed(filename): the name contains a dot and the lowercased
part after the last dot is one of the allowed extensions. -/
def allowed (filename : String) : Bool :=
  filename.toList.contains '.' &&
    ALLOWED_EXTS.contains (pyLower (String.mk (afterLastDot filename.toList)))

/-- app.py unique_name(base, ext): base, underscore, integer timestamp, ext. -/
def unique_name (base : String) (ext : String) (now : Nat) : String :=
  base ++ "_" ++ toString now ++ ext

/-- os.path.splitext: split at the last dot, unless every character of the
name before that dot is itself a dot (then there is no extension). -/
def pySplitext (s : String) : String × String :=
  match lastDotIdx s.toList with
  | some i =>
    if (s.toList.take i).any (fun c => c ≠ '.') then
      (String.mk (s.toList.take i), String.mk (s.toList.drop i))
    else (s, "")
  | none => (s, "")

/-- pathlib splits a name into stem and suffix: the suffix starts at the
last dot provided that dot is neither the first nor the final character. -/
def splitSuffix (cs : List Char) : List Char × List Char :=
  match lastDotIdx cs with
  | some i => if 0 < i ∧ i < cs.length - 1 then (cs.take i, cs.drop i) else (cs, [])
  | none => (cs, [])

/-- pathlib Path.stem of a file name. -/
def pathStem (n : String) : String := String.mk (splitSuffix n.toList).1

/-- pathlib Path.suffix of a file name (includes the dot, possibly empty). -/
def pathSuffix (n : String) : String := String.mk (splitSuffix n.toList).2

/-- Normalization of the declared content type performed by app.py:
take the header value (empty if absent), split at the first semicolon,
strip whitespace, lowercase. -/
def normCtype (header : Option String) : String :=
  pyLower (pyStrip (String.mk ((header.getD "").toList.takeWhile (fun c => c ≠ ';'))))

/-- Dictionary lookup in ALLOWED_MIME_TO_EXT. -/
def lookupExt (ctype : String) : Option String :=
  (ALLOWED_MIME_TO_EXT.find? (fun kv => kv.1 == ctype)).map (fun kv => kv.2)

/-- Outcome of the streaming download loop. -/
inductive DownloadOutcome where
  | tooLarge
  | done (content : List Nat)
deriving DecidableEq, Repr

/-- The streaming loop of app.py lines 153-163: iterate over chunks,
skip empty ones, add each chunk length to the running total, stop with
tooLarge as soon as the total exceeds the cap (the partial file is
closed and removed there), otherwise append the chunk to the file. -/
def downloadLoop : List (List Nat) → Nat → List Nat → DownloadOutcome
  | [], _, acc => .done acc
  | c :: rest, total, acc =>
    if c.isEmpty then downloadLoop rest total acc
    else if total + c.length > MAX_DOWNLOAD_BYTES then .tooLarge
    else downloadLoop rest (total + c.length) (acc ++ c)

/-- Total number of bytes across all chunks. -/
def totalLen (chunks : List (List Nat)) : Nat := (chunks.map List.length).sum

/-- One box produced by the detection engine (b.cls, b.conf, b.xyxy). -/
structure EngineBox where
  cls : Nat
  conf : ℚ
  x1 : ℚ
  y1 : ℚ
  x2 : ℚ
  y2 : ℚ
deriving DecidableEq, Repr

/-- One engine result (results[0]): built-in names, boxes (an absent or
empty box tensor is the empty list), and the rendered raster res.plot(). -/
structure YoloResult where
  names : List String
  boxes : List EngineBox
  plotted : List Nat
deriving DecidableEq, Repr

/-- Floor of a rational, computably. -/
def ratFloor (q : ℚ) : ℤ := Int.fdiv q.num q.den

/-- Round to the nearest integer, ties to even (Python round on a float,
modelled over exact rationals). -/
def roundHalfEven (q : ℚ) : ℤ :=
  if q - (ratFloor q : ℚ) < 1 / 2 then ratFloor q
  else if 1 / 2 < q - (ratFloor q : ℚ) then ratFloor q + 1
  else if ratFloor q % 2 = 0 then ratFloor q else ratFloor q + 1

/-- Python round(x, ndigits) over exact rationals. -/
def pyRound (ndigits : Nat) (q : ℚ) : ℚ :=
  (roundHalfEven (q * 10 ^ ndigits) : ℚ) / 10 ^ ndigits

/-- One entry of the detections list built by run_yolo. -/
structure Detection where
  class_id : Nat
  class_name : String
  confidence : ℚ
  box_xyxy : List ℚ
deriving DecidableEq, Repr

/-- app.py line 71: names = CUSTOM_NAMES if CUSTOM_NAMES else res.names.
none models the absent classes.txt; an empty loaded list is falsy. -/
def pickNames (customNames : Option (List String)) (engineNames : List String) : List String :=
  match customNames with
  | some cs => if cs.isEmpty then engineNames else cs
  | none => engineNames

/-- app.py line 80: names[cls_id] if names and cls_id < len(names)
else str(cls_id). -/
def resolveName (names : List String) (i : Nat) : String :=
  if names ≠ [] ∧ i < names.length then names.getD i "" else toString i

/-- The detections list built by run_yolo (app.py lines 71-83). -/
def run_yolo_dets (customNames : Option (List String)) (res : YoloResult) : List Detection :=
  res.boxes.map (fun b =>
    { class_id := b.cls
      class_name := resolveName (pickNames customNames res.names) b.cls
      confidence := pyRound 4 b.conf
      box_xyxy := [pyRound 1 b.x1, pyRound 1 b.y1, pyRound 1 b.x2, pyRound 1 b.y2] })

/-- Modelled from the words of claim C1 (the resolution chain of the
spec): the table when loaded and the id is within its range, else the
built-in names of the engine when within range, else the stringified id. -/
def resolveNameSpecChain (cn : Option (List String)) (en : List String) (i : Nat) : String :=
  match cn with
  | some t =>
    if i < t.length then t.getD i ""
    else if i < en.length then en.getD i ""
    else toString i
  | none => if i < en.length then en.getD i "" else toString i

/-- Modelled from the amended claim C1: a loaded non-empty table is used
exclusively (table entry when in range, else the stringified id, never
the engine names); without a table, the engine names when in range, else
the stringified id. -/
def resolveNameAmended (cn : Option (List String)) (en : List String) (i : Nat) : String :=
  match cn with
  | some t =>
    if t.isEmpty then (if i < en.length then en.getD i "" else toString i)
    else (if i < t.length then t.getD i "" else toString i)
  | none => if i < en.length then en.getD i "" else toString i

/-- A path: directory part and file name (pathlib parent and name). -/
structure ImgPath where
  parent : String
  name : String
deriving DecidableEq, Repr

/-- The filesystem seen by run_yolo: association of paths to byte contents,
most recent write first. -/
def UploadsFS : Type := List (ImgPath × List Nat)

/-- Read a file: first matching entry. -/
def fsRead : UploadsFS → ImgPath → Option (List Nat)
  | [], _ => none
  | (q, c) :: rest, p => if p = q then some c else fsRead rest p

/-- Write a file (cv2.imwrite): the new entry shadows any older one. -/
def fsWrite (fs : UploadsFS) (p : ImgPath) (c : List Nat) : UploadsFS := (p, c) :: fs

/-- app.py line 91: the annotated file name, stem, marker, suffix. -/
def annotatedName (n : String) : String :=
  pathStem n ++ "_annotated" ++ pathSuffix n

/-- app.py line 92: the annotated file sits beside the original. -/
def annotatedPathOf (p : ImgPath) : ImgPath := ⟨p.parent, annotatedName p.name⟩

/-- Everything run_yolo produces and does: the detections list, the
returned annotated path, the filesystem afterwards, the paths written. -/
structure YoloRun where
  dets : List Detection
  annotated : ImgPath
  fs : UploadsFS
  writes : List ImgPath

/-- app.py run_yolo over an explicit filesystem: the engine (a pure
function of the image bytes and both thresholds, representing a
deterministic model.predict composed with res.plot) is run once on the
bytes stored at the image path; the rendered raster is written to the
annotated path; the rounded detections are returned. -/
def run_yolo_fs (customNames : Option (List String)) (engine : List Nat → ℚ → ℚ → YoloResult)
    (fs : UploadsFS) (image_path : ImgPath) (conf iou : ℚ) : YoloRun :=
  { dets := run_yolo_dets customNames (engine ((fsRead fs image_path).getD []) conf iou)
    annotated := annotatedPathOf image_path
    fs := fsWrite fs (annotatedPathOf image_path)
      (engine ((fsRead fs image_path).getD []) conf iou).plotted
    writes := [annotatedPathOf image_path] }

/-- A multipart file part: filename and content (werkzeug FileStorage). -/
structure FileStorage where
  filename : String
  content : List Nat
deriving DecidableEq, Repr

/-- The parts of a /predict request the handler reads. -/
structure PredictRequest where
  file : Option FileStorage
  imageUrlForm : Option String
deriving DecidableEq, Repr

/-- An HTTP response for the URL path: the declared Content-Type header
(absent modelled as none) and the streamed body chunks. -/
structure HttpResponse where
  contentTypeHeader : Option String
  chunks : List (List Nat)
deriving DecidableEq, Repr

/-- What the network does for this request: either requests.get or
raise_for_status raises a RequestException carrying a message, or a
response is obtained. -/
inductive Fetch where
  | failure (msg : String)
  | success (resp : HttpResponse)
deriving DecidableEq, Repr

/-- Observable outcome of the /predict handler: the rendered error
message if any, the acquired file remaining in the uploads directory
from this attempt (name and content), whether the network was contacted,
and whether the handler went on to run detection. -/
structure PredictResult where
  error : Option String
  saved : Option (String × List Nat)
  fetched : Bool
  ranDetection : Bool
deriving DecidableEq, Repr

/-- app.py lines 121-136, the file-upload branch: reject a disallowed
extension before writing anything; otherwise sanitize the name with
werkzeug secure_filename (the external sf), split the extension, build
the unique name, save the content and continue to detection. -/
def fileBranch (fp : FileStorage) (sf : String → String) (now : Nat) : PredictResult :=
  if allowed fp.filename then
    { error := none
      saved := some
        (unique_name (pySplitext (sf fp.filename)).1 (pySplitext (sf fp.filename)).2 now,
          fp.content)
      fetched := false
      ranDetection := true }
  else
    { error := some ("Unsupported file type"), saved := none, fetched := false,
      ranDetection := false }

/-- app.py lines 139-172, the URL branch, given the already stripped
non-empty field: scheme check before any network activity; then the
fetch (every later step has touched the network); content-type check
before the file is opened; then the capped streaming download. -/
def urlBranch (url : String) (net : Fetch) (now : Nat) : PredictResult :=
  if pyStartswith url ("http://") || pyStartswith url ("https://") then
    match net with
    | .failure msg =>
      { error := some ("Failed to fetch URL: " ++ msg), saved := none, fetched := true,
        ranDetection := false }
    | .success resp =>
      match lookupExt (normCtype resp.contentTypeHeader) with
      | none =>
        { error := some ("URL is not an image (got " ++ normCtype resp.contentTypeHeader ++ ")"),
          saved := none, fetched := true, ranDetection := false }
      | some e =>
        match downloadLoop resp.chunks 0 [] with
        | .tooLarge =>
          { error := some ("Image too large (>5MB)"), saved := none, fetched := true,
            ranDetection := false }
        | .done content =>
          { error := none, saved := some (unique_name ("url") ("." ++ e) now, content),
            fetched := true, ranDetection := true }
  else
    { error := some ("Only http/https URLs are allowed"), saved := none, fetched := false,
      ranDetection := false }

/-- app.py line 118: the stripped image_url form field, empty if absent. -/
def urlFieldOf (req : PredictRequest) : String := pyStrip (req.imageUrlForm.getD "")

/-- The fall-through after the file branch: the URL branch when the
stripped field is non-empty, else the neither-input error. -/
def urlOrNeither (req : PredictRequest) (net : Fetch) (now : Nat) : PredictResult :=
  if urlFieldOf req = "" then
    { error := some ("Please upload a file or provide an image URL"), saved := none,
      fetched := false, ranDetection := false }
  else urlBranch (urlFieldOf req) net now

/-- app.py predict (lines 117-175): the file branch is taken when a file
part is present with a non-empty filename (Python truthiness of the
FileStorage and of its name string); otherwise the URL branch or the
neither-input error. -/
def predict (req : PredictRequest) (sf : String → String) (net : Fetch) (now : Nat) :
    PredictResult :=
  match req.file with
  | some fp => if fp.filename = "" then urlOrNeither req net now else fileBranch fp sf now
  | none => urlOrNeither req net now

/-- No usable file part: absent, or present with an empty filename. -/
def noUsableFile (req : PredictRequest) : Bool :=
  match req.file with
  | none => true
  | some fp => fp.filename == ""

/-! Supporting lemmas. -/

theorem totalLen_nil : totalLen [] = 0 := rfl

theorem totalLen_cons (c : List Nat) (rest : List (List Nat)) :
    totalLen (c :: rest) = c.length + totalLen rest := by
  simp [totalLen]

/-- The streaming loop, from any reachable state (running total within
the cap): it ends in tooLarge exactly when the remaining bytes push the
total over the cap, and otherwise appends every byte to the file. -/
theorem downloadLoop_cap (chunks : List (List Nat)) :
    ∀ total acc, total ≤ MAX_DOWNLOAD_BYTES →
      (MAX_DOWNLOAD_BYTES < total + totalLen chunks →
          downloadLoop chunks total acc = DownloadOutcome.tooLarge)
      ∧ (total + totalLen chunks ≤ MAX_DOWNLOAD_BYTES →
          downloadLoop chunks total acc = DownloadOutcome.done (acc ++ chunks.flatten)) := by
  induction chunks with
  | nil =>
    intro total acc htot
    constructor
    · intro h; rw [totalLen_nil] at h; omega
    · intro _; simp [downloadLoop]
  | cons c rest ih =>
    intro total acc htot
    rw [totalLen_cons]
    by_cases hc : c = []
    · subst hc
      constructor
      · intro h
        have := (ih total acc htot).1 (by simpa using h)
        simpa [downloadLoop] using this
      · intro h
        have := (ih total acc htot).2 (by simpa using h)
        simpa [downloadLoop] using this
    · have hce : c.isEmpty = false := by
        simpa [List.isEmpty_iff] using hc
      by_cases hover : MAX_DOWNLOAD_BYTES < total + c.length
      · constructor
        · intro _; simp [downloadLoop, hce, hover]
        · intro h
          have hrest : 0 ≤ totalLen rest := Nat.zero_le _
          omega
      · have hle : total + c.length ≤ MAX_DOWNLOAD_BYTES := by omega
        constructor
        · intro h
          have := (ih (total + c.length) (acc ++ c) hle).1 (by omega)
          simpa [downloadLoop, hce, hover] using this
        · intro h
          have := (ih (total + c.length) (acc ++ c) hle).2 (by omega)
          simp [downloadLoop, hce, hover, this]

/-- The two sides of splitSuffix reassemble to the original name. -/
theorem splitSuffix_append (cs : List Char) :
    (splitSuffix cs).1 ++ (splitSuffix cs).2 = cs := by
  unfold splitSuffix
  cases lastDotIdx cs with
  | none => simp
  | some i =>
    by_cases h : 0 < i ∧ i < cs.length - 1
    · simp [h]
    · simp [h]

/-- pathlib stem and suffix reassemble to the original name. -/
theorem stem_append_suffix (n : String) : pathStem n ++ pathSuffix n = n := by
  show String.mk ((splitSuffix n.toList).1 ++ (splitSuffix n.toList).2) = n
  rw [splitSuffix_append]
  rfl

theorem annotatedName_length (n : String) : (annotatedName n).length = n.length + 10 := by
  have h := congrArg List.length (splitSuffix_append n.toList)
  rw [List.length_append] at h
  show ((splitSuffix n.toList).1 ++ ("_annotated").data ++ (splitSuffix n.toList).2).length
      = n.toList.length + 10
  rw [List.length_append, List.length_append]
  have h10 : ("_annotated").data.length = 10 := rfl
  omega

/-- The annotated file never coincides with its source file. -/
theorem annotatedPathOf_ne (p : ImgPath) : p ≠ annotatedPathOf p := by
  intro h
  have hname : p.name = annotatedName p.name := congrArg ImgPath.name h
  have hlen := annotatedName_length p.name
  rw [← hname] at hlen
  omega

/-- The name-resolution expression of app.py line 80, applied to the
table picked at line 71, agrees with the amended chain. -/
theorem resolveName_eq_amended (cn : Option (List String)) (en : List String) (i : Nat) :
    resolveName (pickNames cn en) i = resolveNameAmended cn en i := by
  have hen : resolveName en i = if i < en.length then en.getD i "" else toString i := by
    unfold resolveName
    by_cases h : i < en.length
    · rw [if_pos ⟨List.ne_nil_of_length_pos (Nat.lt_of_le_of_lt (Nat.zero_le _) h), h⟩, if_pos h]
    · rw [if_neg (fun hc => h hc.2), if_neg h]
  cases cn with
  | none => simpa [pickNames, resolveNameAmended] using hen
  | some t =>
    cases ht : t.isEmpty with
    | true =>
      have hnil : t = [] := by simpa [List.isEmpty_iff] using ht
      subst hnil
      simpa [pickNames, resolveNameAmended] using hen
    | false =>
      have htne : t ≠ [] := by simpa [List.isEmpty_iff] using ht
      simp only [pickNames, resolveNameAmended, ht, if_neg, Bool.false_eq_true,
        if_false, resolveName]
      by_cases h : i < t.length
      · rw [if_pos ⟨htne, h⟩, if_pos h]
      · rw [if_neg (fun hc => h hc.2), if_neg h]

/-! Claim theorems. -/

/-- Claim C1, counterexample: with the class table loaded as a single
name and the engine knowing two names, a box with class id 1 is rendered
as the stringified id, while the resolution chain of the claim (table,
then engine names, then stringify) would give the engine name. -/
theorem run_yolo_out_of_range_counterexample :
    (run_yolo_dets (some ["a"])
        { names := ["a", "b"],
          boxes := [{ cls := 1, conf := 1, x1 := 0, y1 := 0, x2 := 1, y2 := 1 }],
          plotted := [] }).map Detection.class_name = ["1"]
    ∧ resolveNameSpecChain (some ["a"]) ["a", "b"] 1 = "b"
    ∧ ("1" : String) ≠ "b" := by decide

/-- Claim C1, amended: a loaded non-empty class table is used
exclusively: the table entry when the class id is in range, else the
stringified id; the built-in names of the engine are consulted only when
no table is loaded, with the stringified id as the out-of-range
fallback. -/
theorem run_yolo_class_names (cn : Option (List String)) (res : YoloResult) :
    (run_yolo_dets cn res).map Detection.class_name
      = res.boxes.map (fun b => resolveNameAmended cn res.names b.cls) := by
  simp only [run_yolo_dets, List.map_map, Function.comp]
  exact List.map_congr_left fun b _ => resolveName_eq_amended cn res.names b.cls

/-- Claim C2: a streamed download whose cumulative bytes exceed the
5 MiB cap is aborted with the message about an over-large image and no
file from the attempt remains in the uploads directory, while a download
of at most 5 MiB is never rejected by this check (it is stored whole
under the synthesized name). -/
theorem url_download_size_cap (url : String) (now : Nat) (resp : HttpResponse) (e : String)
    (hscheme : (pyStartswith url ("http://") || pyStartswith url ("https://")) = true)
    (hctype : lookupExt (normCtype resp.contentTypeHeader) = some e) :
    (MAX_DOWNLOAD_BYTES < totalLen resp.chunks →
        urlBranch url (Fetch.success resp) now
          = { error := some ("Image too large (>5MB)"), saved := none, fetched := true,
              ranDetection := false })
    ∧ (totalLen resp.chunks ≤ MAX_DOWNLOAD_BYTES →
        urlBranch url (Fetch.success resp) now
          = { error := none,
              saved := some (unique_name ("url") ("." ++ e) now, resp.chunks.flatten),
              fetched := true, ranDetection := true }) := by
  have hcap := downloadLoop_cap resp.chunks 0 [] (Nat.zero_le _)
  constructor
  · intro h
    have hd := hcap.1 (by simpa using h)
    simp [urlBranch, hscheme, hctype, hd]
  · intro h
    have hd := hcap.2 (by simpa using h)
    simp [urlBranch, hscheme, hctype, hd]

theorem url_download_size_cap_witness :
    urlBranch ("http://h/a.png")
        (Fetch.success
          { contentTypeHeader := some ("image/png")
            chunks := [List.replicate (MAX_DOWNLOAD_BYTES + 1) 0] }) 0
        = { error := some ("Image too large (>5MB)"), saved := none, fetched := true,
            ranDetection := false }
    ∧ urlBranch ("http://h/a.png")
        (Fetch.success { contentTypeHeader := some ("image/png"), chunks := [[7]] }) 0
        = { error := none, saved := some (unique_name ("url") ("." ++ "png") 0, [[7]].flatten),
            fetched := true, ranDetection := true } := by
  constructor
  · exact (url_download_size_cap ("http://h/a.png") 0 _ "png" (by decide) (by decide)).1
      (by rw [totalLen_cons, totalLen_nil, List.length_replicate]; omega)
  · exact (url_download_size_cap ("http://h/a.png") 0 _ "png" (by decide) (by decide)).2
      (by rw [totalLen_cons, totalLen_nil]; decide)

/-- Claim C3: an upload whose filename fails the extension check (no dot,
or a lowercased after-dot part outside jpg, jpeg, png, bmp) is answered
with the unsupported-file-type error, with no file written and no
network activity; an upload passing the check clears this gate: no error
and a stored file. -/
theorem predict_file_type_check (req : PredictRequest) (sf : String → String) (net : Fetch)
    (now : Nat) (fp : FileStorage) (hf : req.file = some fp) (hn : fp.filename ≠ "") :
    (allowed fp.filename = false →
        predict req sf net now
          = { error := some ("Unsupported file type"), saved := none, fetched := false,
              ranDetection := false })
    ∧ (allowed fp.filename = true →
        (predict req sf net now).error = none ∧ (predict req sf net now).saved ≠ none) := by
  constructor
  · intro hbad; simp [predict, hf, hn, fileBranch, hbad]
  · intro hok; simp [predict, hf, hn, fileBranch, hok]

theorem predict_file_type_check_witness :
    predict ⟨some ⟨"doc.pdf", [0]⟩, none⟩ id (Fetch.failure ("x")) 0
        = { error := some ("Unsupported file type"), saved := none, fetched := false,
            ranDetection := false }
    ∧ (predict ⟨some ⟨"cat.JPG", [0]⟩, none⟩ id (Fetch.failure ("x")) 0).error = none := by
  constructor
  · exact (predict_file_type_check _ id (Fetch.failure ("x")) 0 ⟨"doc.pdf", [0]⟩ rfl
      (by decide)).1 (by decide)
  · exact ((predict_file_type_check _ id (Fetch.failure ("x")) 0 ⟨"cat.JPG", [0]⟩ rfl
      (by decide)).2 (by decide)).1

/-- Claim C4, counterexample: the handler strips whitespace before the
scheme check, so the submitted value starting with a space does not
start with either scheme and yet is fetched from the network (here the
fetch fails, so the rendered message is the fetch failure, not the
scheme error). -/
theorem predict_scheme_counterexample :
    pyStartswith (" http://h/a.png") ("http://") = false
    ∧ pyStartswith (" http://h/a.png") ("https://") = false
    ∧ predict ⟨none, some (" http://h/a.png")⟩ id (Fetch.failure ("boom")) 0
        = { error := some ("Failed to fetch URL: boom"), saved := none, fetched := true,
            ranDetection := false } := by decide

/-- Claim C4, amended: when no usable file part is present and the
whitespace-stripped image_url is non-empty but starts with neither
scheme, the handler answers with the scheme error and never touches the
network. -/
theorem predict_scheme_check (req : PredictRequest) (sf : String → String) (net : Fetch)
    (now : Nat) (hnofile : noUsableFile req = true) (hne : urlFieldOf req ≠ "")
    (h1 : pyStartswith (urlFieldOf req) ("http://") = false)
    (h2 : pyStartswith (urlFieldOf req) ("https://") = false) :
    predict req sf net now
      = { error := some ("Only http/https URLs are allowed"), saved := none, fetched := false,
          ranDetection := false } := by
  cases hreq : req.file with
  | none => simp [predict, hreq, urlOrNeither, hne, urlBranch, h1, h2]
  | some fp =>
    have hempty : fp.filename = "" := by
      have h := hnofile
      simp [noUsableFile, hreq] at h
      exact h
    simp [predict, hreq, hempty, urlOrNeither, hne, urlBranch, h1, h2]

theorem predict_scheme_check_witness :
    predict ⟨none, some ("ftp://example.com/a.jpg")⟩ id (Fetch.failure ("x")) 0
      = { error := some ("Only http/https URLs are allowed"), saved := none, fetched := false,
          ranDetection := false } :=
  predict_scheme_check _ id (Fetch.failure ("x")) 0 (by decide) (by decide) (by decide)
    (by decide)

/-- Claim C5: a fetched response whose normalized declared content type
is outside the allow-list is answered with the not-an-image error
carrying that reported type, and no file from the attempt is retained. -/
theorem url_content_type_check (url : String) (now : Nat) (resp : HttpResponse)
    (hscheme : (pyStartswith url ("http://") || pyStartswith url ("https://")) = true)
    (hctype : lookupExt (normCtype resp.contentTypeHeader) = none) :
    urlBranch url (Fetch.success resp) now
      = { error := some ("URL is not an image (got " ++ normCtype resp.contentTypeHeader ++ ")"),
          saved := none, fetched := true, ranDetection := false } := by
  simp [urlBranch, hscheme, hctype]

theorem url_content_type_check_witness :
    urlBranch ("http://h/p")
        (Fetch.success
          { contentTypeHeader := some ("text/html; charset=utf-8")
            chunks := [[1]] }) 0
      = { error := some ("URL is not an image (got text/html)"), saved := none, fetched := true,
          ranDetection := false } := by
  have h := url_content_type_check ("http://h/p") 0
    { contentTypeHeader := some ("text/html; charset=utf-8"), chunks := [[1]] }
    (by decide) (by decide)
  exact h.trans (by decide)

/-- Claim C6: every detection carries the engine confidence rounded to
four decimal places and the four engine coordinates rounded to one
decimal place, in order. -/
theorem run_yolo_rounding (cn : Option (List String)) (res : YoloResult) :
    (run_yolo_dets cn res).map (fun d => (d.confidence, d.box_xyxy))
      = res.boxes.map (fun b =>
          (pyRound 4 b.conf,
            [pyRound 1 b.x1, pyRound 1 b.y1, pyRound 1 b.x2, pyRound 1 b.y2])) := by
  simp [run_yolo_dets, List.map_map, Function.comp]

/-- Claim C7: one detection invocation writes exactly one file, named
stem, annotated marker, suffix of the source name, in the directory of
the source image, and returns that same path; stem and suffix really
partition the source name. -/
theorem run_yolo_annotated_file (cn : Option (List String))
    (engine : List Nat → ℚ → ℚ → YoloResult) (fs : UploadsFS) (p : ImgPath) (conf iou : ℚ) :
    (run_yolo_fs cn engine fs p conf iou).writes
        = [⟨p.parent, pathStem p.name ++ "_annotated" ++ pathSuffix p.name⟩]
    ∧ (run_yolo_fs cn engine fs p conf iou).annotated
        = ⟨p.parent, pathStem p.name ++ "_annotated" ++ pathSuffix p.name⟩
    ∧ pathStem p.name ++ pathSuffix p.name = p.name :=
  ⟨rfl, rfl, stem_append_suffix p.name⟩

/-- Claim C8: with a deterministic engine (a pure function of the image
bytes and the two thresholds), running the detection a second time on
the same stored image with the same thresholds returns the identical
rounded detections list, even though the first run wrote the annotated
file: the annotated path never shadows the source image. -/
theorem run_yolo_idempotent (cn : Option (List String))
    (engine : List Nat → ℚ → ℚ → YoloResult) (fs : UploadsFS) (p : ImgPath) (conf iou : ℚ) :
    (run_yolo_fs cn engine (run_yolo_fs cn engine fs p conf iou).fs p conf iou).dets
      = (run_yolo_fs cn engine fs p conf iou).dets := by
  simp only [run_yolo_fs, fsWrite, fsRead]
  rw [if_neg (annotatedPathOf_ne p)]

/-- Claim C9: when the request carries a file part with a non-empty
filename, the file branch handles it and the URL field plays no role:
the network is never contacted. -/
theorem predict_file_priority (req : PredictRequest) (sf : String → String) (net : Fetch)
    (now : Nat) (fp : FileStorage) (hf : req.file = some fp) (hn : fp.filename ≠ "")
    (_hurl : req.imageUrlForm.getD "" ≠ "") :
    predict req sf net now = fileBranch fp sf now
    ∧ (predict req sf net now).fetched = false := by
  have hmain : predict req sf net now = fileBranch fp sf now := by
    simp [predict, hf, hn]
  refine ⟨hmain, ?_⟩
  rw [hmain]
  by_cases h : allowed fp.filename <;> simp [fileBranch, h]

theorem predict_file_priority_witness :
    predict ⟨some ⟨"a.png", [1]⟩, some ("http://h/x.png")⟩ id (Fetch.failure ("x")) 0
        = fileBranch ⟨"a.png", [1]⟩ id 0
    ∧ (predict ⟨some ⟨"a.png", [1]⟩, some ("http://h/x.png")⟩ id
        (Fetch.failure ("x")) 0).fetched = false :=
  predict_file_priority _ id (Fetch.failure ("x")) 0 ⟨"a.png", [1]⟩ rfl (by decide) (by decide)

/-- Claim C10, counterexample: with an empty-filename file part and the
non-empty image_url consisting of a single space, the handler renders
the neither-input error rather than taking the URL path (which would
have rendered the scheme error). -/
theorem predict_empty_filename_counterexample :
    (" " : String) ≠ ""
    ∧ predict ⟨some ⟨"", []⟩, some (" ")⟩ id (Fetch.failure ("x")) 0
        = { error := some ("Please upload a file or provide an image URL"), saved := none,
            fetched := false, ranDetection := false } := by decide

/-- Claim C10, amended: an empty-filename file part behaves exactly as
an absent one; the URL path is taken when the whitespace-stripped
image_url is non-empty, and otherwise the neither-input error is
rendered. -/
theorem predict_empty_filename (req : PredictRequest) (sf : String → String) (net : Fetch)
    (now : Nat) (fp : FileStorage) (hf : req.file = some fp) (hn : fp.filename = "") :
    predict req sf net now = predict ⟨none, req.imageUrlForm⟩ sf net now
    ∧ (urlFieldOf req ≠ "" → predict req sf net now = urlBranch (urlFieldOf req) net now)
    ∧ (urlFieldOf req = "" →
        predict req sf net now
          = { error := some ("Please upload a file or provide an image URL"), saved := none,
              fetched := false, ranDetection := false }) := by
  refine ⟨?_, ?_, ?_⟩
  · simp [predict, hf, hn, urlOrNeither, urlFieldOf]
  · intro h; simp [predict, hf, hn, urlOrNeither, h]
  · intro h; simp [predict, hf, hn, urlOrNeither, h]

theorem predict_empty_filename_witness :
    predict ⟨some ⟨"", []⟩, none⟩ id (Fetch.failure ("x")) 0
      = { error := some ("Please upload a file or provide an image URL"), saved := none,
          fetched := false, ranDetection := false } :=
  (predict_empty_filename _ id (Fetch.failure ("x")) 0 ⟨"", []⟩ rfl rfl).2.2 (by decide)

end ObjDet
